import Mathlib

/-!
Verification of the smart-whiteboard backend core
(src/backend/app/services/canvas_service.py, src/backend/app/services/ai_service.py,
src/backend/app/api/routes.py, src/backend/app/models/drawing.py) against its
natural-language specification.

Shallow embedding conventions:
* Python floats are modelled as exact rationals (ℚ); Python ints as Int/Nat.
* Python `Dict[str, int]` counters built by insertion are modelled as ordered
  association lists with Python-dict get/set semantics (update in place keeps
  position, new key appended at the end).
* The three service maps (rooms, canvas_data, analytics) are only ever accessed
  pointwise by key, so they are modelled as functions `String → Option _`.
* `raise Exception(msg)` is modelled by `Except String`, the message preserved.
* Nondeterministic inputs of the code (uuid4 identifiers, datetime.now
  timestamps) become explicit parameters.
* External library results (cv2 contour geometry, pytesseract engine output)
  are the inputs of the embedded functions, mirroring the exact fields the
  Python code reads from them.
-/

namespace Whiteboard

/-- models/drawing.py ToolType -/
inductive ToolType where
  | pen
  | eraser
  | shape
  | txt
  deriving DecidableEq, Repr

/-- models/drawing.py ShapeType -/
inductive ShapeType where
  | rectangle
  | circle
  | triangle
  | line
  | arrow
  deriving DecidableEq, Repr

/-- models/drawing.py: ShapeType is a str enum; `.value` gives the string. -/
def ShapeType.value : ShapeType → String
  | .rectangle => "rectangle"
  | .circle => "circle"
  | .triangle => "triangle"
  | .line => "line"
  | .arrow => "arrow"

/-- models/drawing.py DrawingPoint -/
structure DrawingPoint where
  x : ℚ
  y : ℚ
  pressure : Option ℚ := some 1
  deriving DecidableEq, Repr

/-- models/drawing.py DrawingStroke -/
structure DrawingStroke where
  points : List DrawingPoint
  color : String := "#000000"
  width : ℚ := 2
  tool : ToolType := .pen
  shape_type : Option ShapeType := none
  deriving DecidableEq, Repr

/-- models/drawing.py DrawingData -/
structure DrawingData where
  strokes : List DrawingStroke := []
  canvas_width : Int := 1920
  canvas_height : Int := 1080
  background_color : String := "#ffffff"
  timestamp : Option String := none
  deriving DecidableEq, Repr

/-- canvas_service.py heatmap literal `{'width': w, 'height': h, 'data': d}`. -/
structure Heatmap where
  width : Int
  height : Int
  data : List (List Int)
  deriving DecidableEq, Repr

/-- Ordered string-keyed counter dictionary (Python `Dict[str, int]`). -/
abbrev StrDict := List (String × Nat)

/-- Python `d.get(k, default)`. -/
def dictGet (d : StrDict) (k : String) (default : Nat) : Nat :=
  match d.find? (fun p => p.1 = k) with
  | some p => p.2
  | none => default

/-- Python `d[k] = v`: overwrite in place if the key exists, else append. -/
def dictSet (d : StrDict) (k : String) (v : Nat) : StrDict :=
  if d.any (fun p => p.1 = k) then
    d.map (fun p => if p.1 = k then (k, v) else p)
  else
    d ++ [(k, v)]

/-- models/drawing.py CanvasAnalytics -/
structure CanvasAnalytics where
  total_strokes : Nat
  active_users : Int
  drawing_time : ℚ
  heatmap_data : Heatmap
  shape_count : StrDict
  color_usage : StrDict
  deriving DecidableEq, Repr

/-- canvas_service.py room record dictionary. -/
structure Room where
  id : String
  name : String
  created_at : String
  active_users : Int
  canvas_width : Int
  canvas_height : Int
  deriving DecidableEq, Repr

/-- config.py settings used by the canvas service. -/
def DEFAULT_CANVAS_WIDTH : Int := 1920

/-- config.py settings used by the canvas service. -/
def DEFAULT_CANVAS_HEIGHT : Int := 1080

/-- The three in-memory maps of CanvasService.__init__. -/
@[ext]
structure CanvasServiceState where
  rooms : String → Option Room
  canvas_data : String → Option DrawingData
  analytics : String → Option CanvasAnalytics

/-- CanvasService.__init__: all maps empty. -/
def initState : CanvasServiceState :=
  { rooms := fun _ => none
    canvas_data := fun _ => none
    analytics := fun _ => none }

/-- CanvasService.create_room; `room_id` (uuid4) and `created_at`
(datetime.now) are the code's nondeterministic inputs, passed explicitly.
Also initializes an empty canvas document for the new room. -/
def create_room (s : CanvasServiceState) (room_id room_name created_at : String) :
    CanvasServiceState :=
  { s with
    rooms := fun k =>
      if k = room_id then
        some { id := room_id, name := room_name, created_at := created_at
               active_users := 0
               canvas_width := DEFAULT_CANVAS_WIDTH
               canvas_height := DEFAULT_CANVAS_HEIGHT }
      else s.rooms k
    canvas_data := fun k =>
      if k = room_id then
        some { canvas_width := DEFAULT_CANVAS_WIDTH
               canvas_height := DEFAULT_CANVAS_HEIGHT }
      else s.canvas_data k }

/-- CanvasService.get_room_info -/
def get_room_info (s : CanvasServiceState) (room_id : String) : Except String Room :=
  match s.rooms room_id with
  | none => .error "Room not found"
  | some r => .ok r

/-- The color-usage loop of CanvasService._update_room_analytics. -/
def computeColorUsage (strokes : List DrawingStroke) : StrDict :=
  strokes.foldl (fun d stroke => dictSet d stroke.color (dictGet d stroke.color 0 + 1)) []

/-- The shape-count loop of CanvasService._update_room_analytics
(only strokes with a shape kind are tallied, keyed by the enum value). -/
def computeShapeCount (strokes : List DrawingStroke) : StrDict :=
  strokes.foldl
    (fun d stroke =>
      match stroke.shape_type with
      | some st => dictSet d st.value (dictGet d st.value 0 + 1)
      | none => d)
    []

/-- The fresh analytics record CanvasService._update_room_analytics installs
when the room has none yet (note active_users starts at 1 there). -/
def freshAnalytics : CanvasAnalytics :=
  { total_strokes := 0, active_users := 1, drawing_time := 0
    heatmap_data := { width := 1920, height := 1080, data := [] }
    shape_count := [], color_usage := [] }

/-- CanvasService._update_room_analytics as a pure map on the room's current
analytics entry: missing entry is first replaced by `freshAnalytics`, then the
document-derived fields are recomputed (0.1 seconds per stroke). -/
def update_room_analytics (prev : Option CanvasAnalytics) (d : DrawingData) :
    CanvasAnalytics :=
  let a := prev.getD freshAnalytics
  { a with
    total_strokes := d.strokes.length
    color_usage := computeColorUsage d.strokes
    shape_count := computeShapeCount d.strokes
    drawing_time := (d.strokes.length : ℚ) * (1 / 10) }

/-- CanvasService.save_canvas: NotFound when the room is unknown; otherwise
replaces the stored document and recomputes analytics in the same call. -/
def save_canvas (s : CanvasServiceState) (room_id : String) (d : DrawingData) :
    Except String CanvasServiceState :=
  match s.rooms room_id with
  | none => .error "Room not found"
  | some _ =>
      .ok { s with
            canvas_data := fun k => if k = room_id then some d else s.canvas_data k
            analytics := fun k =>
              if k = room_id then some (update_room_analytics (s.analytics room_id) d)
              else s.analytics k }

/-- CanvasService.get_canvas -/
def get_canvas (s : CanvasServiceState) (room_id : String) : Except String DrawingData :=
  match s.canvas_data room_id with
  | none => .error "Canvas not found"
  | some d => .ok d

/-- CanvasService.get_room_analytics: zero-valued record when none computed. -/
def get_room_analytics (s : CanvasServiceState) (room_id : String) : CanvasAnalytics :=
  match s.analytics room_id with
  | none =>
      { total_strokes := 0, active_users := 0, drawing_time := 0
        heatmap_data := { width := 1920, height := 1080, data := [] }
        shape_count := [], color_usage := [] }
  | some a => a

/-- CanvasService.join_room: NotFound if the room is absent, else increments
the room's active_users; the user_id argument is never read. -/
def join_room (s : CanvasServiceState) (room_id user_id : String) :
    Except String CanvasServiceState :=
  match s.rooms room_id with
  | none => .error "Room not found"
  | some r =>
      .ok { s with
            rooms := fun k =>
              if k = room_id then some { r with active_users := r.active_users + 1 }
              else s.rooms k }

/-- CanvasService.leave_room: silent no-op if the room is absent, else
decrements active_users floored at 0; the user_id argument is never read. -/
def leave_room (s : CanvasServiceState) (room_id user_id : String) :
    CanvasServiceState :=
  match s.rooms room_id with
  | none => s
  | some r =>
      { s with
        rooms := fun k =>
          if k = room_id then some { r with active_users := max 0 (r.active_users - 1) }
          else s.rooms k }

/-- CanvasService.delete_room: removes the room record, its canvas document and
its analytics, each only if present; never an error. -/
def delete_room (s : CanvasServiceState) (room_id : String) : CanvasServiceState :=
  { rooms := fun k => if k = room_id then none else s.rooms k
    canvas_data := fun k => if k = room_id then none else s.canvas_data k
    analytics := fun k => if k = room_id then none else s.analytics k }

/-! ### AI service (ai_service.py)

The cv2/pytesseract pipeline steps (base64 decode, grayscale, threshold,
findContours, approxPolyDP, boundingRect, contourArea, arcLength,
image_to_string, image_to_data) are external library calls; their outputs are
the inputs of the embedded functions, carrying exactly the fields the Python
code reads from them. -/

/-- An approximated contour as the Python code observes it: its vertex count
(`len(approx)`), its bounding-rect width and height (cv2.boundingRect), its
area (cv2.contourArea) and its closed perimeter (cv2.arcLength). -/
structure Contour where
  vertices : Nat
  w : ℚ
  h : ℚ
  area : ℚ
  perimeter : ℚ
  deriving DecidableEq, Repr

/-- np.pi is an IEEE-754 double; this is its exact rational value. -/
def npPi : ℚ := 884279719003555 / 281474976710656

/-- One classified shape dictionary produced by AIService._classify_shape. -/
structure ShapeInfo where
  type : String
  confidence : ℚ
  vertices : Nat
  area : ℚ
  deriving DecidableEq, Repr

/-- The circularity computed in the >8-vertex branch of _classify_shape:
`4 * np.pi * area / (perimeter * perimeter) if perimeter > 0 else 0`. -/
def circularity (c : Contour) : ℚ :=
  if c.perimeter > 0 then 4 * npPi * c.area / (c.perimeter * c.perimeter) else 0

/-- AIService._classify_shape -/
def classify_shape (c : Contour) : ShapeInfo :=
  if c.vertices = 3 then
    { type := "triangle", confidence := 9 / 10, vertices := c.vertices, area := c.area }
  else if c.vertices = 4 then
    let aspect_ratio := c.w / c.h
    if 4 / 5 ≤ aspect_ratio ∧ aspect_ratio ≤ 6 / 5 then
      { type := "square", confidence := 17 / 20, vertices := c.vertices, area := c.area }
    else
      { type := "rectangle", confidence := 4 / 5, vertices := c.vertices, area := c.area }
  else if c.vertices > 8 ∧ circularity c > 4 / 5 then
    { type := "circle", confidence := circularity c, vertices := c.vertices, area := c.area }
  else
    { type := "unknown", confidence := 1 / 2, vertices := c.vertices, area := c.area }

/-- AIService.detect_shapes result (processing_time is wall-clock and elided). -/
structure ShapeDetectionResult where
  shapes : List ShapeInfo
  confidence : ℚ
  deriving DecidableEq, Repr

/-- AIService.detect_shapes on the contours extracted from the decoded image:
classifies each contour and keeps those whose confidence meets the threshold;
aggregate confidence is the mean over the kept shapes, or 0 if none. -/
def detect_shapes (contours : List Contour) (confidence_threshold : ℚ) :
    ShapeDetectionResult :=
  let shapes := (contours.map classify_shape).filter
    (fun s => confidence_threshold ≤ s.confidence)
  { shapes := shapes
    confidence :=
      if shapes.isEmpty then 0
      else (shapes.map ShapeInfo.confidence).sum / shapes.length }

/-- models/drawing.py ShapeDetectionRequest; image_data is abstracted by the
contours the cv2 pipeline extracts from the decoded image. -/
structure ShapeDetectionRequest where
  contours : List Contour
  confidence_threshold : ℚ := 7 / 10
  max_shapes : Nat := 10
  deriving DecidableEq, Repr

/-- routes.py detect_shapes handler: calls
`ai_service.detect_shapes(request.image_data)` without forwarding the
request's confidence_threshold (or max_shapes), so the service default 0.7
is always used. -/
def route_detect_shapes (req : ShapeDetectionRequest) : ShapeDetectionResult :=
  detect_shapes req.contours (7 / 10)

/-- One row of the pytesseract image_to_data DICT output as the code reads it. -/
structure OCRFragment where
  frag_text : String
  conf : Int
  left : Int
  top : Int
  width : Int
  height : Int
  deriving DecidableEq, Repr

/-- One bounding-box dictionary appended by AIService.perform_ocr. -/
structure OCRBox where
  box_text : String
  confidence : Int
  x : Int
  y : Int
  width : Int
  height : Int
  deriving DecidableEq, Repr

/-- The dictionary perform_ocr builds from a retained fragment. -/
def mkOCRBox (f : OCRFragment) : OCRBox :=
  { box_text := f.frag_text, confidence := f.conf
    x := f.left, y := f.top, width := f.width, height := f.height }

/-- AIService.perform_ocr result (processing_time elided). -/
structure OCRResult where
  text : String
  confidence : ℚ
  bounding_boxes : List OCRBox
  deriving DecidableEq, Repr

/-- AIService.perform_ocr on the OCR engine's output for the processed image:
keeps fragments with confidence strictly above the fixed cutoff 60; aggregate
confidence is the mean over kept fragments, or 0 if none. -/
def perform_ocr (full_text : String) (data : List OCRFragment) : OCRResult :=
  let bounding_boxes := (data.filter (fun f => f.conf > 60)).map mkOCRBox
  { text := full_text.trim
    confidence :=
      if bounding_boxes.isEmpty then 0
      else ((bounding_boxes.map OCRBox.confidence).sum : ℚ) / bounding_boxes.length
    bounding_boxes := bounding_boxes }

/-- models/drawing.py OCRRequest; image_data is abstracted by the engine's
output (full text and per-fragment data) for the processed image. -/
structure OCRRequest where
  engine_text : String
  engine_data : List OCRFragment
  language : String := "eng"
  confidence_threshold : ℚ := 6 / 10
  deriving DecidableEq, Repr

/-- routes.py perform_ocr handler: calls
`ai_service.perform_ocr(request.image_data)`; the request's
confidence_threshold is accepted but never used. -/
def route_perform_ocr (req : OCRRequest) : OCRResult :=
  perform_ocr req.engine_text req.engine_data

/-! ### States reachable through the service operations

`create` receives a uuid4 identifier; per the spec (§3) collision probability
is treated as zero, so the identifier is assumed fresh. -/

/-- CanvasServiceState reachable from the empty initial state by the
service's mutating operations. -/
inductive Reachable : CanvasServiceState → Prop where
  | init : Reachable initState
  | create {s : CanvasServiceState} (room_id room_name created_at : String)
      (fresh : s.rooms room_id = none) (hs : Reachable s) :
      Reachable (create_room s room_id room_name created_at)
  | save {s s2 : CanvasServiceState} {room_id : String} {d : DrawingData}
      (h : save_canvas s room_id d = .ok s2) (hs : Reachable s) : Reachable s2
  | join {s s2 : CanvasServiceState} {room_id user_id : String}
      (h : join_room s room_id user_id = .ok s2) (hs : Reachable s) : Reachable s2
  | leave {s : CanvasServiceState} (room_id user_id : String) (hs : Reachable s) :
      Reachable (leave_room s room_id user_id)
  | delete {s : CanvasServiceState} (room_id : String) (hs : Reachable s) :
      Reachable (delete_room s room_id)

/-- The analytics content the recompute derives from a document. -/
def recomputedAnalytics (d : DrawingData) : CanvasAnalytics :=
  { total_strokes := d.strokes.length
    active_users := 1
    drawing_time := (d.strokes.length : ℚ) * (1 / 10)
    heatmap_data := { width := 1920, height := 1080, data := [] }
    shape_count := computeShapeCount d.strokes
    color_usage := computeColorUsage d.strokes }

/-- Invariant maintained by every service operation: member counts are
nonnegative; documents and analytics only exist for registered rooms; a
stored analytics record is exactly the pure recompute from the room's
stored document (with active_users pinned at 1). -/
def Inv (s : CanvasServiceState) : Prop :=
  (∀ r room, s.rooms r = some room → 0 ≤ room.active_users) ∧
  (∀ r, s.rooms r = none → s.canvas_data r = none ∧ s.analytics r = none) ∧
  (∀ r a, s.analytics r = some a →
    ∃ d, s.canvas_data r = some d ∧ a = recomputedAnalytics d)

@[simp]
lemma create_room_rooms (s : CanvasServiceState) (room_id room_name created_at k : String) :
    (create_room s room_id room_name created_at).rooms k =
      if k = room_id then
        some { id := room_id, name := room_name, created_at := created_at
               active_users := 0, canvas_width := DEFAULT_CANVAS_WIDTH
               canvas_height := DEFAULT_CANVAS_HEIGHT }
      else s.rooms k := rfl

@[simp]
lemma create_room_canvas_data (s : CanvasServiceState)
    (room_id room_name created_at k : String) :
    (create_room s room_id room_name created_at).canvas_data k =
      if k = room_id then
        some { canvas_width := DEFAULT_CANVAS_WIDTH
               canvas_height := DEFAULT_CANVAS_HEIGHT }
      else s.canvas_data k := rfl

@[simp]
lemma create_room_analytics (s : CanvasServiceState)
    (room_id room_name created_at k : String) :
    (create_room s room_id room_name created_at).analytics k = s.analytics k := rfl

@[simp]
lemma delete_room_rooms (s : CanvasServiceState) (room_id k : String) :
    (delete_room s room_id).rooms k = if k = room_id then none else s.rooms k := rfl

@[simp]
lemma delete_room_canvas_data (s : CanvasServiceState) (room_id k : String) :
    (delete_room s room_id).canvas_data k =
      if k = room_id then none else s.canvas_data k := rfl

@[simp]
lemma delete_room_analytics (s : CanvasServiceState) (room_id k : String) :
    (delete_room s room_id).analytics k =
      if k = room_id then none else s.analytics k := rfl

lemma inv_init : Inv initState := by
  refine ⟨fun r room h => ?_, fun r _ => ⟨rfl, rfl⟩, fun r a h => ?_⟩ <;>
    simp [initState] at h

lemma save_canvas_ok {s s2 : CanvasServiceState} {room_id : String} {d : DrawingData}
    (h : save_canvas s room_id d = .ok s2) :
    (∃ room, s.rooms room_id = some room) ∧
    s2 = { s with
           canvas_data := fun k => if k = room_id then some d else s.canvas_data k
           analytics := fun k =>
             if k = room_id then some (update_room_analytics (s.analytics room_id) d)
             else s.analytics k } := by
  unfold save_canvas at h
  cases hr : s.rooms room_id with
  | none => rw [hr] at h; exact absurd h (by simp)
  | some room =>
      rw [hr] at h
      simp only [Except.ok.injEq] at h
      exact ⟨⟨room, rfl⟩, h.symm⟩

lemma join_room_ok {s s2 : CanvasServiceState} {room_id user_id : String}
    (h : join_room s room_id user_id = .ok s2) :
    ∃ room, s.rooms room_id = some room ∧
      s2 = { s with
             rooms := fun k =>
               if k = room_id then some { room with active_users := room.active_users + 1 }
               else s.rooms k } := by
  unfold join_room at h
  cases hr : s.rooms room_id with
  | none => rw [hr] at h; exact absurd h (by simp)
  | some room =>
      rw [hr] at h
      simp only [Except.ok.injEq] at h
      exact ⟨room, rfl, h.symm⟩

lemma inv_create {s : CanvasServiceState} (room_id room_name created_at : String)
    (fresh : s.rooms room_id = none) (hs : Inv s) :
    Inv (create_room s room_id room_name created_at) := by
  obtain ⟨h1, h2, h3⟩ := hs
  refine ⟨fun r room h => ?_, fun r h => ?_, fun r a h => ?_⟩
  · rw [create_room_rooms] at h
    by_cases hk : r = room_id
    · rw [if_pos hk] at h
      cases h
      exact le_refl 0
    · rw [if_neg hk] at h
      exact h1 r room h
  · rw [create_room_rooms] at h
    by_cases hk : r = room_id
    · rw [if_pos hk] at h
      cases h
    · rw [if_neg hk] at h
      rw [create_room_canvas_data, if_neg hk, create_room_analytics]
      exact h2 r h
  · rw [create_room_analytics] at h
    by_cases hk : r = room_id
    · rw [hk, (h2 room_id fresh).2] at h
      cases h
    · rw [create_room_canvas_data, if_neg hk]
      exact h3 r a h

lemma inv_save {s s2 : CanvasServiceState} {room_id : String} {d : DrawingData}
    (h : save_canvas s room_id d = .ok s2) (hs : Inv s) : Inv s2 := by
  obtain ⟨h1, h2, h3⟩ := hs
  obtain ⟨⟨room, hroom⟩, hs2⟩ := save_canvas_ok h
  subst hs2
  refine ⟨fun r rm hr => h1 r rm hr, fun r hr => ?_, fun r a ha => ?_⟩
  · have hr' : s.rooms r = none := hr
    have hne : r ≠ room_id := fun he => by rw [he, hroom] at hr'; cases hr'
    constructor
    · show (if r = room_id then some d else s.canvas_data r) = none
      rw [if_neg hne]
      exact (h2 r hr').1
    · show (if r = room_id then some (update_room_analytics (s.analytics room_id) d)
        else s.analytics r) = none
      rw [if_neg hne]
      exact (h2 r hr').2
  · have ha' : (if r = room_id then some (update_room_analytics (s.analytics room_id) d)
      else s.analytics r) = some a := ha
    by_cases hk : r = room_id
    · rw [if_pos hk] at ha'
      cases ha'
      refine ⟨d, ?_, ?_⟩
      · show (if r = room_id then some d else s.canvas_data r) = some d
        rw [if_pos hk]
      · cases hprev : s.analytics room_id with
        | none => rfl
        | some a0 =>
            obtain ⟨d0, _, ha0⟩ := h3 room_id a0 hprev
            rw [ha0]
            rfl
    · rw [if_neg hk] at ha'
      obtain ⟨d0, hd0, ha0⟩ := h3 r a ha'
      refine ⟨d0, ?_, ha0⟩
      show (if r = room_id then some d else s.canvas_data r) = some d0
      rw [if_neg hk]
      exact hd0

lemma inv_join {s s2 : CanvasServiceState} {room_id user_id : String}
    (h : join_room s room_id user_id = .ok s2) (hs : Inv s) : Inv s2 := by
  obtain ⟨h1, h2, h3⟩ := hs
  obtain ⟨room, hroom, hs2⟩ := join_room_ok h
  subst hs2
  refine ⟨fun r rm hr => ?_, fun r hr => ?_, fun r a ha => h3 r a ha⟩
  · have hr' : (if r = room_id then some { room with active_users := room.active_users + 1 }
      else s.rooms r) = some rm := hr
    by_cases hk : r = room_id
    · rw [if_pos hk] at hr'
      cases hr'
      have h0 := h1 room_id room hroom
      show 0 ≤ room.active_users + 1
      omega
    · rw [if_neg hk] at hr'
      exact h1 r rm hr'
  · have hr' : (if r = room_id then some { room with active_users := room.active_users + 1 }
      else s.rooms r) = none := hr
    by_cases hk : r = room_id
    · rw [if_pos hk] at hr'
      cases hr'
    · rw [if_neg hk] at hr'
      exact h2 r hr'

lemma inv_leave {s : CanvasServiceState} (room_id user_id : String) (hs : Inv s) :
    Inv (leave_room s room_id user_id) := by
  obtain ⟨h1, h2, h3⟩ := hs
  cases hr : s.rooms room_id with
  | none =>
      have he : leave_room s room_id user_id = s := by
        unfold leave_room
        rw [hr]
      rw [he]
      exact ⟨h1, h2, h3⟩
  | some room =>
      have he : leave_room s room_id user_id =
          { s with
            rooms := fun k =>
              if k = room_id then some { room with active_users := max 0 (room.active_users - 1) }
              else s.rooms k } := by
        unfold leave_room
        rw [hr]
      rw [he]
      refine ⟨fun r rm hrm => ?_, fun r hrm => ?_, fun r a ha => h3 r a ha⟩
      · have hrm' :
            (if r = room_id then some { room with active_users := max 0 (room.active_users - 1) }
              else s.rooms r) = some rm := hrm
        by_cases hk : r = room_id
        · rw [if_pos hk] at hrm'
          cases hrm'
          show 0 ≤ max 0 (room.active_users - 1)
          exact le_max_left 0 _
        · rw [if_neg hk] at hrm'
          exact h1 r rm hrm'
      · have hrm' :
            (if r = room_id then some { room with active_users := max 0 (room.active_users - 1) }
              else s.rooms r) = none := hrm
        by_cases hk : r = room_id
        · rw [if_pos hk] at hrm'
          cases hrm'
        · rw [if_neg hk] at hrm'
          exact h2 r hrm'

lemma inv_delete {s : CanvasServiceState} (room_id : String) (hs : Inv s) :
    Inv (delete_room s room_id) := by
  obtain ⟨h1, h2, h3⟩ := hs
  refine ⟨fun r rm hrm => ?_, fun r hrm => ?_, fun r a ha => ?_⟩
  · rw [delete_room_rooms] at hrm
    by_cases hk : r = room_id
    · rw [if_pos hk] at hrm
      cases hrm
    · rw [if_neg hk] at hrm
      exact h1 r rm hrm
  · rw [delete_room_canvas_data, delete_room_analytics]
    by_cases hk : r = room_id
    · rw [if_pos hk, if_pos hk]
      exact ⟨rfl, rfl⟩
    · rw [delete_room_rooms, if_neg hk] at hrm
      rw [if_neg hk, if_neg hk]
      exact h2 r hrm
  · rw [delete_room_analytics] at ha
    by_cases hk : r = room_id
    · rw [if_pos hk] at ha
      cases ha
    · rw [if_neg hk] at ha
      rw [delete_room_canvas_data, if_neg hk]
      exact h3 r a ha

/-- Every reachable service state satisfies the invariant. -/
lemma reachable_inv {s : CanvasServiceState} (hs : Reachable s) : Inv s := by
  induction hs with
  | init => exact inv_init
  | create room_id room_name created_at fresh _ ih => exact inv_create _ _ _ fresh ih
  | save h _ ih => exact inv_save h ih
  | join h _ ih => exact inv_join h ih
  | leave room_id user_id _ ih => exact inv_leave _ _ ih
  | delete room_id _ ih => exact inv_delete _ ih

/-! ### Counting lemmas for the analytics dictionaries -/

lemma dictGet_cons (p : String × Nat) (d : StrDict) (k : String) (v0 : Nat) :
    dictGet (p :: d) k v0 = if p.1 = k then p.2 else dictGet d k v0 := by
  unfold dictGet
  by_cases h : p.1 = k
  · rw [List.find?_cons_of_pos _ (by simpa using h), if_pos h]
  · rw [List.find?_cons_of_neg _ (by simpa using h), if_neg h]

lemma dictGet_map_set_ne (d : StrDict) (k k' : String) (v : Nat) (h : k' ≠ k) :
    dictGet (d.map (fun p => if p.1 = k then (k, v) else p)) k' 0 = dictGet d k' 0 := by
  induction d with
  | nil => rfl
  | cons p d' ih =>
      by_cases hp : p.1 = k
      · rw [List.map_cons, if_pos hp, dictGet_cons, dictGet_cons]
        have hk1 : ¬((k, v).1 = k') := fun he => h he.symm
        have hk2 : ¬(p.1 = k') := fun he => h (he.symm.trans hp)
        rw [if_neg hk1, if_neg hk2]
        exact ih
      · rw [List.map_cons, if_neg hp, dictGet_cons, dictGet_cons]
        by_cases hp' : p.1 = k'
        · rw [if_pos hp', if_pos hp']
        · rw [if_neg hp', if_neg hp']
          exact ih

lemma dictGet_map_set_self (d : StrDict) (k : String) (v : Nat)
    (h : d.any (fun p => p.1 = k) = true) :
    dictGet (d.map (fun p => if p.1 = k then (k, v) else p)) k 0 = v := by
  induction d with
  | nil => simp at h
  | cons p d' ih =>
      by_cases hp : p.1 = k
      · rw [List.map_cons, if_pos hp, dictGet_cons]
        exact if_pos rfl
      · simp only [List.any_cons, Bool.or_eq_true, decide_eq_true_eq] at h
        rcases h with h | h
        · exact absurd h hp
        · rw [List.map_cons, if_neg hp, dictGet_cons, if_neg hp]
          exact ih h

lemma dictGet_append_single (d : StrDict) (k k' : String) (v : Nat)
    (h : ¬d.any (fun p => p.1 = k) = true) :
    dictGet (d ++ [(k, v)]) k' 0 = if k' = k then v else dictGet d k' 0 := by
  induction d with
  | nil =>
      rw [List.nil_append, dictGet_cons]
      by_cases hk : k' = k
      · rw [if_pos hk]
        exact if_pos hk.symm
      · have hne : ¬(k = k') := fun he => hk he.symm
        rw [if_neg hk]
        exact if_neg hne
  | cons p d' ih =>
      simp only [List.any_cons, Bool.or_eq_true, decide_eq_true_eq, not_or] at h
      obtain ⟨hp, hd'⟩ := h
      rw [List.cons_append, dictGet_cons, dictGet_cons]
      by_cases hp' : p.1 = k'
      · have hk : ¬(k' = k) := fun he => hp (hp'.trans he)
        rw [if_pos hp', if_neg hk, if_pos hp']
      · rw [if_neg hp', if_neg hp']
        exact ih (by simpa using hd')

lemma dictGet_dictSet (d : StrDict) (k k' : String) (v : Nat) :
    dictGet (dictSet d k v) k' 0 = if k' = k then v else dictGet d k' 0 := by
  unfold dictSet
  by_cases hany : d.any (fun p => p.1 = k) = true
  · rw [if_pos hany]
    by_cases hk : k' = k
    · rw [if_pos hk, hk]
      exact dictGet_map_set_self d k v hany
    · rw [if_neg hk]
      exact dictGet_map_set_ne d k k' v hk
  · rw [if_neg hany]
    exact dictGet_append_single d k k' v hany

lemma colorUsage_loop (strokes : List DrawingStroke) (init : StrDict) (c : String) :
    dictGet
      (strokes.foldl
        (fun d stroke => dictSet d stroke.color (dictGet d stroke.color 0 + 1)) init) c 0
      = dictGet init c 0 + (strokes.map DrawingStroke.color).count c := by
  induction strokes generalizing init with
  | nil => simp
  | cons stroke rest ih =>
      rw [List.foldl_cons, List.map_cons, ih, dictGet_dictSet, List.count_cons]
      by_cases hc : c = stroke.color
      · rw [if_pos hc]
        simp [hc]
        omega
      · rw [if_neg hc]
        have hc' : ¬(stroke.color = c) := fun he => hc he.symm
        simp [hc']

/-- For every color, its entry in the computed color-usage dictionary equals
the number of strokes carrying that color (0 when absent). -/
lemma dictGet_computeColorUsage (strokes : List DrawingStroke) (c : String) :
    dictGet (computeColorUsage strokes) c 0 = (strokes.map DrawingStroke.color).count c := by
  unfold computeColorUsage
  rw [colorUsage_loop]
  simp [dictGet]

lemma shapeCount_loop (strokes : List DrawingStroke) (init : StrDict) (k : String) :
    dictGet
      (strokes.foldl
        (fun d stroke =>
          match stroke.shape_type with
          | some st => dictSet d st.value (dictGet d st.value 0 + 1)
          | none => d) init) k 0
      = dictGet init k 0
        + ((strokes.filterMap DrawingStroke.shape_type).map ShapeType.value).count k := by
  induction strokes generalizing init with
  | nil => simp
  | cons stroke rest ih =>
      rw [List.foldl_cons]
      cases hst : stroke.shape_type with
      | none =>
          rw [ih]
          simp [List.filterMap_cons, hst]
      | some st =>
          rw [ih, dictGet_dictSet]
          simp only [List.filterMap_cons, hst, List.map_cons, List.count_cons]
          by_cases hk : k = st.value
          · rw [if_pos hk]
            simp [hk]
            omega
          · rw [if_neg hk]
            have hk' : ¬(st.value = k) := fun he => hk he.symm
            simp [hk']

/-- For every shape-kind name, its entry in the computed shape-count dictionary
equals the number of strokes whose shape kind has that name (strokes without a
shape kind are not counted). -/
lemma dictGet_computeShapeCount (strokes : List DrawingStroke) (k : String) :
    dictGet (computeShapeCount strokes) k 0
      = ((strokes.filterMap DrawingStroke.shape_type).map ShapeType.value).count k := by
  unfold computeShapeCount
  rw [shapeCount_loop]
  simp [dictGet]

/-! ### Claim theorems -/

/-- Extract the new state of a successful operation (used only to name
concrete post-states in closed statements). -/
def okState (e : Except String CanvasServiceState) : CanvasServiceState :=
  match e with
  | .ok s => s
  | .error _ => initState

/-- The registry record a fresh create installs for concrete inputs
room id "r1", name "Team A", timestamp "t0". -/
def exRoom : Room :=
  { id := "r1", name := "Team A", created_at := "t0", active_users := 0
    canvas_width := 1920, canvas_height := 1080 }

/-- C1 counterexample: a room created via create_room but never saved does NOT
make get_canvas fail with NotFound — create_room initializes an empty canvas
document, so get_canvas returns that empty document. -/
theorem C1_counterexample :
    get_canvas (create_room initState "r1" "Team A" "t0") "r1" =
      Except.ok { strokes := [], canvas_width := 1920, canvas_height := 1080
                  background_color := "#ffffff", timestamp := none } := rfl

/-- C1 (amended): get_canvas fails with "Canvas not found" exactly when no
canvas entry exists for the room; a created-but-never-saved room has the empty
initial document and get_canvas returns it; after a successful save,
get_canvas returns the saved document. -/
theorem C1_get_canvas :
    (∀ (s : CanvasServiceState) (r : String), s.canvas_data r = none →
        get_canvas s r = .error "Canvas not found") ∧
    (∀ (s : CanvasServiceState) (r : String) (d : DrawingData),
        s.canvas_data r = some d → get_canvas s r = .ok d) ∧
    (∀ (s : CanvasServiceState) (room_id room_name created_at : String),
        get_canvas (create_room s room_id room_name created_at) room_id =
          .ok { canvas_width := DEFAULT_CANVAS_WIDTH
                canvas_height := DEFAULT_CANVAS_HEIGHT }) ∧
    (∀ (s s2 : CanvasServiceState) (r : String) (d : DrawingData),
        save_canvas s r d = .ok s2 → get_canvas s2 r = .ok d) := by
  refine ⟨?_, ?_, ?_, ?_⟩
  · intro s r h
    unfold get_canvas
    rw [h]
  · intro s r d h
    unfold get_canvas
    rw [h]
  · intro s room_id room_name created_at
    unfold get_canvas
    rw [create_room_canvas_data, if_pos rfl]
  · intro s s2 r d h
    obtain ⟨_, hs2⟩ := save_canvas_ok h
    subst hs2
    unfold get_canvas
    have hc : (if r = r then some d else s.canvas_data r) = some d := if_pos rfl
    rw [show ({ s with
        canvas_data := fun k => if k = r then some d else s.canvas_data k
        analytics := fun k =>
          if k = r then some (update_room_analytics (s.analytics r) d)
          else s.analytics k } : CanvasServiceState).canvas_data r
          = (if r = r then some d else s.canvas_data r) from rfl, hc]

/-- C1 witness: the amended theorem applied at a concrete absent room. -/
theorem C1_witness :
    initState.canvas_data "nosuch" = none ∧
      get_canvas initState "nosuch" = .error "Canvas not found" :=
  ⟨rfl, C1_get_canvas.1 initState "nosuch" rfl⟩

/-- C4: save_canvas fails with NotFound exactly when the room is unknown to
the registry; on success it replaces the stored document and recomputes the
room's analytics in the same call, leaving every other key untouched. On
failure no new state is produced, so document and analytics are unchanged by
construction. -/
theorem C4_save_atomic :
    (∀ (s : CanvasServiceState) (r : String) (d : DrawingData),
        s.rooms r = none → save_canvas s r d = .error "Room not found") ∧
    (∀ (s : CanvasServiceState) (r : String) (d : DrawingData) (room : Room),
        s.rooms r = some room →
          ∃ s2, save_canvas s r d = .ok s2 ∧
            s2.canvas_data r = some d ∧
            s2.analytics r = some (update_room_analytics (s.analytics r) d) ∧
            s2.rooms = s.rooms ∧
            (∀ k, k ≠ r →
              s2.canvas_data k = s.canvas_data k ∧ s2.analytics k = s.analytics k)) := by
  constructor
  · intro s r d h
    unfold save_canvas
    rw [h]
  · intro s r d room h
    refine ⟨{ s with
        canvas_data := fun k => if k = r then some d else s.canvas_data k
        analytics := fun k =>
          if k = r then some (update_room_analytics (s.analytics r) d)
          else s.analytics k }, ?_, ?_, ?_, rfl, ?_⟩
    · unfold save_canvas
      rw [h]
    · show (if r = r then some d else s.canvas_data r) = some d
      rw [if_pos rfl]
    · show (if r = r then some (update_room_analytics (s.analytics r) d)
        else s.analytics r) = some (update_room_analytics (s.analytics r) d)
      rw [if_pos rfl]
    · intro k hk
      constructor
      · show (if k = r then some d else s.canvas_data k) = s.canvas_data k
        rw [if_neg hk]
      · show (if k = r then some (update_room_analytics (s.analytics r) d)
          else s.analytics k) = s.analytics k
        rw [if_neg hk]

/-- C4 witness: saving to an unknown room fails with NotFound. -/
theorem C4_witness :
    initState.rooms "nosuch" = none ∧
      save_canvas initState "nosuch" {} = .error "Room not found" :=
  ⟨rfl, C4_save_atomic.1 initState "nosuch" {} rfl⟩

/-- C5: in every reachable state every registered room has a nonnegative
member count; create initializes the count to 0; join fails with NotFound on
an absent room and increments the count on a present one; leave is a silent
no-op on an absent room and decrements floored at 0 on a present one. -/
theorem C5_member_count_floor :
    (∀ s : CanvasServiceState, Reachable s → ∀ r room, s.rooms r = some room →
        0 ≤ room.active_users) ∧
    (∀ (s : CanvasServiceState) (room_id room_name created_at : String),
        ((create_room s room_id room_name created_at).rooms room_id).map Room.active_users
          = some 0) ∧
    (∀ (s : CanvasServiceState) (r u : String), s.rooms r = none →
        join_room s r u = .error "Room not found") ∧
    (∀ (s : CanvasServiceState) (r u : String) (room : Room), s.rooms r = some room →
        ∃ s2, join_room s r u = .ok s2 ∧
          s2.rooms r = some { room with active_users := room.active_users + 1 }) ∧
    (∀ (s : CanvasServiceState) (r u : String), s.rooms r = none →
        leave_room s r u = s) ∧
    (∀ (s : CanvasServiceState) (r u : String) (room : Room), s.rooms r = some room →
        (leave_room s r u).rooms r =
          some { room with active_users := max 0 (room.active_users - 1) }) := by
  refine ⟨?_, ?_, ?_, ?_, ?_, ?_⟩
  · intro s hs r room h
    exact (reachable_inv hs).1 r room h
  · intro s room_id room_name created_at
    rw [create_room_rooms, if_pos rfl]
    rfl
  · intro s r u h
    unfold join_room
    rw [h]
  · intro s r u room h
    refine ⟨{ s with rooms := fun k => if k = r then some { room with active_users := room.active_users + 1 } else s.rooms k }, ?_, ?_⟩
    · unfold join_room
      rw [h]
    · exact if_pos rfl
  · intro s r u h
    unfold leave_room
    rw [h]
  · intro s r u room h
    have he : leave_room s r u = { s with rooms := fun k => if k = r then some { room with active_users := max 0 (room.active_users - 1) } else s.rooms k } := by
      unfold leave_room
      rw [h]
    rw [he]
    exact if_pos rfl

/-- C5 witness: the nonnegativity invariant applied at the reachable state
reached by one create. -/
theorem C5_witness :
    (create_room initState "r1" "Team A" "t0").rooms "r1" = some exRoom ∧
      0 ≤ exRoom.active_users :=
  ⟨rfl, C5_member_count_floor.1 (create_room initState "r1" "Team A" "t0")
    (Reachable.create "r1" "Team A" "t0" rfl Reachable.init) "r1" exRoom rfl⟩

/-- C8: delete_room removes the registry record, the canvas document and the
analytics of the room, leaves every other key unchanged, is idempotent, and on
a reachable state deleting an absent room is a silent no-op that leaves the
state unchanged. -/
theorem C8_delete_cascades :
    (∀ (s : CanvasServiceState) (r : String),
        (delete_room s r).rooms r = none ∧ (delete_room s r).canvas_data r = none ∧
          (delete_room s r).analytics r = none) ∧
    (∀ (s : CanvasServiceState) (r k : String), k ≠ r →
        (delete_room s r).rooms k = s.rooms k ∧
        (delete_room s r).canvas_data k = s.canvas_data k ∧
        (delete_room s r).analytics k = s.analytics k) ∧
    (∀ (s : CanvasServiceState) (r : String),
        delete_room (delete_room s r) r = delete_room s r) ∧
    (∀ s : CanvasServiceState, Reachable s → ∀ r : String, s.rooms r = none →
        delete_room s r = s) := by
  refine ⟨?_, ?_, ?_, ?_⟩
  · intro s r
    refine ⟨?_, ?_, ?_⟩ <;> simp [delete_room_rooms, delete_room_canvas_data,
      delete_room_analytics]
  · intro s r k hk
    refine ⟨?_, ?_, ?_⟩ <;> simp [delete_room_rooms, delete_room_canvas_data,
      delete_room_analytics, hk]
  · intro s r
    ext k
    · simp only [delete_room_rooms]
      by_cases hk : k = r <;> simp [hk]
    · simp only [delete_room_canvas_data]
      by_cases hk : k = r <;> simp [hk]
    · simp only [delete_room_analytics]
      by_cases hk : k = r <;> simp [hk]
  · intro s hs r h
    obtain ⟨hc, ha⟩ := (reachable_inv hs).2.1 r h
    ext k
    · simp only [delete_room_rooms]
      by_cases hk : k = r
      · rw [if_pos hk, hk, h]
      · rw [if_neg hk]
    · simp only [delete_room_canvas_data]
      by_cases hk : k = r
      · rw [if_pos hk, hk, hc]
      · rw [if_neg hk]
    · simp only [delete_room_analytics]
      by_cases hk : k = r
      · rw [if_pos hk, hk, ha]
      · rw [if_neg hk]

/-- C8 witness: deleting an absent room from the (reachable) initial state
leaves the state unchanged. -/
theorem C8_witness :
    initState.rooms "nosuch" = none ∧ delete_room initState "nosuch" = initState :=
  ⟨rfl, C8_delete_cascades.2.2.2 initState Reachable.init "nosuch" rfl⟩

/-- States used to witness the double-join behavior at concrete inputs. -/
def joinOnce : CanvasServiceState :=
  okState (join_room (create_room initState "r1" "Team A" "t0") "r1" "alice")

/-- The state after the same member identifier joined the same room twice. -/
def joinTwice : CanvasServiceState := okState (join_room joinOnce "r1" "alice")

/-- C10: join_room and leave_room never read the member identifier — any two
identifiers produce identical states — and membership is a bare counter: the
same identifier joining twice increments the count twice. -/
theorem C10_member_id_ignored :
    (∀ (s : CanvasServiceState) (r m1 m2 : String),
        join_room s r m1 = join_room s r m2) ∧
    (∀ (s : CanvasServiceState) (r m1 m2 : String),
        leave_room s r m1 = leave_room s r m2) ∧
    (∀ (s : CanvasServiceState) (r m : String) (room : Room)
        (s2 s3 : CanvasServiceState),
        s.rooms r = some room →
        join_room s r m = .ok s2 → join_room s2 r m = .ok s3 →
        s3.rooms r = some { room with active_users := room.active_users + 2 }) := by
  refine ⟨fun s r m1 m2 => rfl, fun s r m1 m2 => rfl, ?_⟩
  intro s r m room s2 s3 h h2 h3
  obtain ⟨room1, hr1, hs2⟩ := join_room_ok h2
  rw [h] at hr1
  cases hr1
  subst hs2
  obtain ⟨room2, hr2, hs3⟩ := join_room_ok h3
  have hr2' : (if r = r then some { room with active_users := room.active_users + 1 }
      else s.rooms r) = some room2 := hr2
  rw [if_pos rfl] at hr2'
  cases hr2'
  subst hs3
  show (if r = r then some { room with active_users := room.active_users + 1 + 1 }
    else _) = some { room with active_users := room.active_users + 2 }
  rw [if_pos rfl]
  have : room.active_users + 1 + 1 = room.active_users + 2 := by omega
  rw [this]

/-- C10 witness: "alice" joining room "r1" twice raises the member count from
0 to 2. -/
theorem C10_witness :
    (create_room initState "r1" "Team A" "t0").rooms "r1" = some exRoom ∧
    join_room (create_room initState "r1" "Team A" "t0") "r1" "alice" = .ok joinOnce ∧
    join_room joinOnce "r1" "alice" = .ok joinTwice ∧
    joinTwice.rooms "r1" = some { exRoom with active_users := exRoom.active_users + 2 } :=
  ⟨rfl, rfl, rfl,
    C10_member_id_ignored.2.2 (create_room initState "r1" "Team A" "t0") "r1" "alice"
      exRoom joinOnce joinTwice rfl rfl rfl⟩

/-- The spec's end-to-end example document: 3 strokes with colors red, red,
blue; the third stroke tool=shape with shape_type=circle. -/
def exampleDoc : DrawingData :=
  { strokes :=
      [ { points := [{ x := 0, y := 0 }], color := "red" }
      , { points := [{ x := 1, y := 0 }], color := "red" }
      , { points := [{ x := 2, y := 0 }], color := "blue", tool := .shape
          shape_type := some .circle } ] }

/-- C2: after a successful save the stored analytics have total stroke count =
length of the document's stroke sequence, color usage counting each stroke's
color, shape count counting only strokes that carry a shape kind, and drawing
time = stroke count × the fixed 0.1-second per-stroke constant. -/
theorem C2_save_analytics :
    ∀ (s : CanvasServiceState) (room_id : String) (d : DrawingData) (room : Room),
      s.rooms room_id = some room →
      ∃ s2 a, save_canvas s room_id d = .ok s2 ∧ s2.analytics room_id = some a ∧
        a.total_strokes = d.strokes.length ∧
        (∀ c, dictGet a.color_usage c 0 = (d.strokes.map DrawingStroke.color).count c) ∧
        (∀ k, dictGet a.shape_count k 0 =
          ((d.strokes.filterMap DrawingStroke.shape_type).map ShapeType.value).count k) ∧
        a.drawing_time = (d.strokes.length : ℚ) * (1 / 10) := by
  intro s room_id d room h
  refine ⟨{ s with canvas_data := fun k => if k = room_id then some d else s.canvas_data k, analytics := fun k => if k = room_id then some (update_room_analytics (s.analytics room_id) d) else s.analytics k },
    update_room_analytics (s.analytics room_id) d, ?_, ?_, rfl, ?_, ?_, rfl⟩
  · unfold save_canvas
    rw [h]
  · exact if_pos rfl
  · intro c
    exact dictGet_computeColorUsage d.strokes c
  · intro k
    exact dictGet_computeShapeCount d.strokes k

/-- C2 witness: the spec's end-to-end example — create room "Team A", save the
3-stroke document; the resulting analytics count 3 strokes, red twice, blue
once, circle once. -/
theorem C2_witness :
    (create_room initState "r1" "Team A" "t0").rooms "r1" = some exRoom ∧
    (∃ s2 a,
      save_canvas (create_room initState "r1" "Team A" "t0") "r1" exampleDoc = .ok s2 ∧
      s2.analytics "r1" = some a ∧
      a.total_strokes = 3 ∧
      (∀ c, dictGet a.color_usage c 0 = (exampleDoc.strokes.map DrawingStroke.color).count c) ∧
      (∀ k, dictGet a.shape_count k 0 =
        ((exampleDoc.strokes.filterMap DrawingStroke.shape_type).map ShapeType.value).count k) ∧
      a.drawing_time = (3 : ℚ) * (1 / 10)) :=
  ⟨rfl, C2_save_analytics (create_room initState "r1" "Team A" "t0") "r1" exampleDoc
    exRoom rfl⟩

/-- C3: the classifier maps a 3-vertex contour to triangle/0.9; a 4-vertex
contour to square/0.85 when the bounding-box aspect ratio lies in [0.8, 1.2]
and to rectangle/0.8 otherwise; a contour with more than 8 vertices and
circularity above 0.8 to circle with confidence = circularity; and every
remaining case to unknown/0.5. -/
theorem C3_classify_cases :
    (∀ c : Contour, c.vertices = 3 →
        classify_shape c =
          { type := "triangle", confidence := 9 / 10, vertices := c.vertices, area := c.area }) ∧
    (∀ c : Contour, c.vertices = 4 → 4 / 5 ≤ c.w / c.h → c.w / c.h ≤ 6 / 5 →
        classify_shape c =
          { type := "square", confidence := 17 / 20, vertices := c.vertices, area := c.area }) ∧
    (∀ c : Contour, c.vertices = 4 → ¬(4 / 5 ≤ c.w / c.h ∧ c.w / c.h ≤ 6 / 5) →
        classify_shape c =
          { type := "rectangle", confidence := 4 / 5, vertices := c.vertices, area := c.area }) ∧
    (∀ c : Contour, 8 < c.vertices → 4 / 5 < circularity c →
        classify_shape c =
          { type := "circle", confidence := circularity c, vertices := c.vertices
            area := c.area }) ∧
    (∀ c : Contour, c.vertices ≠ 3 → c.vertices ≠ 4 →
        ¬(8 < c.vertices ∧ 4 / 5 < circularity c) →
        classify_shape c =
          { type := "unknown", confidence := 1 / 2, vertices := c.vertices
            area := c.area }) := by
  refine ⟨?_, ?_, ?_, ?_, ?_⟩
  · intro c h3
    unfold classify_shape
    rw [if_pos h3]
  · intro c h4 hlo hhi
    unfold classify_shape
    rw [if_neg (by omega : ¬c.vertices = 3), if_pos h4, if_pos ⟨hlo, hhi⟩]
  · intro c h4 hasp
    unfold classify_shape
    rw [if_neg (by omega : ¬c.vertices = 3), if_pos h4, if_neg hasp]
  · intro c h8 hcirc
    unfold classify_shape
    rw [if_neg (by omega : ¬c.vertices = 3), if_neg (by omega : ¬c.vertices = 4),
      if_pos ⟨h8, hcirc⟩]
  · intro c h3 h4 hrest
    unfold classify_shape
    rw [if_neg h3, if_neg h4, if_neg hrest]

/-- C3 witness: a concrete 3-vertex contour classifies as triangle/0.9. -/
theorem C3_witness :
    (({ vertices := 3, w := 1, h := 1, area := 2, perimeter := 6 } : Contour).vertices = 3) ∧
    classify_shape { vertices := 3, w := 1, h := 1, area := 2, perimeter := 6 } =
      { type := "triangle", confidence := 9 / 10, vertices := 3, area := 2 } :=
  ⟨rfl, C3_classify_cases.1 { vertices := 3, w := 1, h := 1, area := 2, perimeter := 6 } rfl⟩

/-- The concrete states of the C9 analysis: create "Team A", then save an
empty document while the registry member count is still 0. -/
def savedEmpty : CanvasServiceState :=
  okState (save_canvas (create_room initState "r1" "Team A" "t0") "r1" {})

/-- C9 counterexample: right after the save, the analytics record's
active_users field is 1 while the room registry's member count is 0 — the
analytics active-user field does not reflect the registry member count at
recompute time, and it is not derived from the registry at all. -/
theorem C9_counterexample :
    save_canvas (create_room initState "r1" "Team A" "t0") "r1" {} = .ok savedEmpty ∧
    (savedEmpty.analytics "r1").map CanvasAnalytics.active_users = some 1 ∧
    (savedEmpty.rooms "r1").map Room.active_users = some 0 ∧
    some (1 : Int) ≠ some (0 : Int) := by
  refine ⟨rfl, rfl, rfl, by decide⟩

/-- C9 (amended): in every reachable state a stored analytics record exists
only alongside a stored document and equals the pure recompute from that
document — its stroke-derived fields are a function of the latest saved
document only, while its active_users field is the constant 1 installed at the
first recompute (never the registry count) and its heatmap is the constant
empty placeholder; join and leave never touch the analytics map. -/
theorem C9_analytics_pure :
    (∀ s : CanvasServiceState, Reachable s → ∀ (r : String) (a : CanvasAnalytics),
        s.analytics r = some a → s.canvas_data r ≠ none) ∧
    (∀ s : CanvasServiceState, Reachable s →
      ∀ (r : String) (a : CanvasAnalytics) (d : DrawingData),
        s.analytics r = some a → s.canvas_data r = some d →
        a = recomputedAnalytics d) ∧
    (∀ (s s2 : CanvasServiceState) (r u : String),
        join_room s r u = .ok s2 → s2.analytics = s.analytics) ∧
    (∀ (s : CanvasServiceState) (r u : String),
        (leave_room s r u).analytics = s.analytics) := by
  refine ⟨?_, ?_, ?_, ?_⟩
  · intro s hs r a ha hc
    obtain ⟨d, hd, _⟩ := (reachable_inv hs).2.2 r a ha
    rw [hd] at hc
    cases hc
  · intro s hs r a d ha hd
    obtain ⟨d0, hd0, ha0⟩ := (reachable_inv hs).2.2 r a ha
    rw [hd] at hd0
    cases hd0
    exact ha0
  · intro s s2 r u h
    obtain ⟨room, _, hs2⟩ := join_room_ok h
    subst hs2
    rfl
  · intro s r u
    unfold leave_room
    cases hr : s.rooms r <;> rfl

/-- C9 witness: the amended purity applied at the concrete reachable state of
the counterexample — the stored analytics equal the pure recompute of the
empty document. -/
theorem C9_witness :
    savedEmpty.analytics "r1" = some (recomputedAnalytics {}) ∧
    savedEmpty.canvas_data "r1" = some {} ∧
    recomputedAnalytics ({} : DrawingData) = recomputedAnalytics {} :=
  ⟨rfl, rfl,
    C9_analytics_pure.2.1 savedEmpty
      (Reachable.save
        (rfl : save_canvas (create_room initState "r1" "Team A" "t0") "r1" {} =
          .ok savedEmpty)
        (Reachable.create "r1" "Team A" "t0" rfl Reachable.init))
      "r1" (recomputedAnalytics {}) {} rfl rfl⟩

lemma detect_shapes_confidence (contours : List Contour) (t : ℚ) :
    (detect_shapes contours t).confidence =
      if (detect_shapes contours t).shapes.isEmpty then 0
      else ((detect_shapes contours t).shapes.map ShapeInfo.confidence).sum /
        ((detect_shapes contours t).shapes.length : ℚ) := rfl

lemma classify_shape_tri_eval :
    classify_shape { vertices := 3, w := 1, h := 1, area := 1, perimeter := 4 } =
      { type := "triangle", confidence := 9 / 10, vertices := 3, area := 1 } := rfl

lemma detect_tri_shapes_eval :
    (detect_shapes [{ vertices := 3, w := 1, h := 1, area := 1, perimeter := 4 }]
        (7 / 10)).shapes =
      [{ type := "triangle", confidence := 9 / 10, vertices := 3, area := 1 }] := by
  show ((([{ vertices := 3, w := 1, h := 1, area := 1, perimeter := 4 }] : List Contour).map
      classify_shape).filter (fun si => (7 : ℚ) / 10 ≤ si.confidence)) =
    [{ type := "triangle", confidence := 9 / 10, vertices := 3, area := 1 }]
  rw [List.map_cons, List.map_nil, classify_shape_tri_eval, List.filter_cons,
    if_pos (decide_eq_true (by norm_num : (7 : ℚ) / 10 ≤ 9 / 10)), List.filter_nil]

/-- C6 counterexample: a request whose confidence_threshold is 0.95 still
retains a triangle of confidence 0.9 (< 0.95) because the route handler never
forwards the request's threshold and the service filters with the default
0.7 instead. -/
theorem C6_counterexample :
    (route_detect_shapes
        { contours := [{ vertices := 3, w := 1, h := 1, area := 1, perimeter := 4 }]
          confidence_threshold := 19 / 20, max_shapes := 10 }).shapes =
      [{ type := "triangle", confidence := 9 / 10, vertices := 3, area := 1 }] ∧
    ¬((19 : ℚ) / 20 ≤ (9 : ℚ) / 10) := by
  exact ⟨detect_tri_shapes_eval, by norm_num⟩

/-- C6 (amended): the service-level detect_shapes retains exactly the
classified shapes whose confidence meets its threshold argument and aggregates
the mean confidence (0 when none retained); but the HTTP route discards the
request's confidence_threshold (and max_shapes) and always calls the service
with the default threshold 0.7, so the caller-supplied threshold has no
effect. -/
theorem C6_detect_shapes_route :
    (∀ (contours : List Contour) (t : ℚ),
        (detect_shapes contours t).shapes =
          (contours.map classify_shape).filter (fun si => t ≤ si.confidence)) ∧
    (∀ (contours : List Contour) (t : ℚ), (detect_shapes contours t).shapes = [] →
        (detect_shapes contours t).confidence = 0) ∧
    (∀ (contours : List Contour) (t : ℚ), (detect_shapes contours t).shapes ≠ [] →
        (detect_shapes contours t).confidence =
          ((detect_shapes contours t).shapes.map ShapeInfo.confidence).sum /
            ((detect_shapes contours t).shapes.length : ℚ)) ∧
    (∀ (contours : List Contour) (t1 t2 : ℚ) (m1 m2 : Nat),
        route_detect_shapes { contours := contours, confidence_threshold := t1, max_shapes := m1 } =
          route_detect_shapes { contours := contours, confidence_threshold := t2, max_shapes := m2 }) ∧
    (∀ req : ShapeDetectionRequest,
        route_detect_shapes req = detect_shapes req.contours (7 / 10)) := by
  refine ⟨fun contours t => rfl, ?_, ?_, fun contours t1 t2 m1 m2 => rfl, fun req => rfl⟩
  · intro contours t h
    rw [detect_shapes_confidence, h]
    rfl
  · intro contours t h
    rw [detect_shapes_confidence,
      if_neg (fun hc => h (List.isEmpty_iff.mp hc))]

/-- C6 witness: the amended mean-confidence clause applied at a concrete
nonempty detection. -/
theorem C6_witness :
    (detect_shapes [{ vertices := 3, w := 1, h := 1, area := 1, perimeter := 4 }]
        (7 / 10)).shapes ≠ [] ∧
    (detect_shapes [{ vertices := 3, w := 1, h := 1, area := 1, perimeter := 4 }]
        (7 / 10)).confidence =
      ((detect_shapes [{ vertices := 3, w := 1, h := 1, area := 1, perimeter := 4 }]
          (7 / 10)).shapes.map ShapeInfo.confidence).sum /
        (((detect_shapes [{ vertices := 3, w := 1, h := 1, area := 1, perimeter := 4 }]
          (7 / 10)).shapes.length : ℚ)) :=
  ⟨by rw [detect_tri_shapes_eval]; exact List.cons_ne_nil _ _,
    C6_detect_shapes_route.2.2.1
      [{ vertices := 3, w := 1, h := 1, area := 1, perimeter := 4 }] (7 / 10)
      (by rw [detect_tri_shapes_eval]; exact List.cons_ne_nil _ _)⟩

lemma mkOCRBox_inj {f g : OCRFragment} (h : mkOCRBox f = mkOCRBox g) : f = g := by
  cases f
  cases g
  simp only [mkOCRBox, OCRBox.mk.injEq] at h
  obtain ⟨h1, h2, h3, h4, h5, h6⟩ := h
  subst h1
  subst h2
  subst h3
  subst h4
  subst h5
  subst h6
  rfl

lemma perform_ocr_confidence (t : String) (data : List OCRFragment) :
    (perform_ocr t data).confidence =
      if (perform_ocr t data).bounding_boxes.isEmpty then 0
      else (((perform_ocr t data).bounding_boxes.map OCRBox.confidence).sum : ℚ) /
        ((perform_ocr t data).bounding_boxes.length : ℚ) := rfl

/-- C7: perform_ocr retains exactly the engine fragments whose reported
confidence strictly exceeds the fixed cutoff 60; the aggregate confidence is
the mean over retained fragments (0 when none); and the route handler ignores
the request's confidence_threshold entirely, so it has no effect on the
filtering. -/
theorem C7_ocr_fixed_cutoff :
    (∀ (t : String) (data : List OCRFragment),
        (perform_ocr t data).bounding_boxes =
          (data.filter (fun f => f.conf > 60)).map mkOCRBox) ∧
    (∀ (t : String) (data : List OCRFragment) (f : OCRFragment), f ∈ data →
        (mkOCRBox f ∈ (perform_ocr t data).bounding_boxes ↔ 60 < f.conf)) ∧
    (∀ (t : String) (data : List OCRFragment),
        (perform_ocr t data).bounding_boxes = [] → (perform_ocr t data).confidence = 0) ∧
    (∀ (t : String) (data : List OCRFragment),
        (perform_ocr t data).bounding_boxes ≠ [] →
        (perform_ocr t data).confidence =
          (((perform_ocr t data).bounding_boxes.map OCRBox.confidence).sum : ℚ) /
            ((perform_ocr t data).bounding_boxes.length : ℚ)) ∧
    (∀ (et : String) (ed : List OCRFragment) (lang : String) (t1 t2 : ℚ),
        route_perform_ocr
            { engine_text := et, engine_data := ed, language := lang
              confidence_threshold := t1 } =
          route_perform_ocr
            { engine_text := et, engine_data := ed, language := lang
              confidence_threshold := t2 }) := by
  refine ⟨fun t data => rfl, ?_, ?_, ?_, fun et ed lang t1 t2 => rfl⟩
  · intro t data f hf
    constructor
    · intro hmem
      have hmem' : mkOCRBox f ∈ (data.filter (fun x => x.conf > 60)).map mkOCRBox := hmem
      obtain ⟨g, hg, hge⟩ := List.mem_map.mp hmem'
      have hg60 := (List.mem_filter.mp hg).2
      have hgf : g = f := mkOCRBox_inj hge
      subst hgf
      simpa using hg60
    · intro h60
      show mkOCRBox f ∈ (data.filter (fun x => x.conf > 60)).map mkOCRBox
      exact List.mem_map_of_mem _ (List.mem_filter.mpr ⟨hf, by simpa using h60⟩)
  · intro t data h
    rw [perform_ocr_confidence, h]
    rfl
  · intro t data h
    rw [perform_ocr_confidence,
      if_neg (fun hc => h (List.isEmpty_iff.mp hc))]

/-- C7 witness: a fragment with engine confidence 90 is retained. -/
theorem C7_witness :
    ({ frag_text := "hi", conf := 90, left := 0, top := 0, width := 5, height := 5 }
        : OCRFragment) ∈
      [({ frag_text := "hi", conf := 90, left := 0, top := 0, width := 5, height := 5 }
        : OCRFragment)] ∧
    (mkOCRBox { frag_text := "hi", conf := 90, left := 0, top := 0, width := 5, height := 5 } ∈
        (perform_ocr "hi"
          [{ frag_text := "hi", conf := 90, left := 0, top := 0, width := 5, height := 5 }]).bounding_boxes ↔
      60 < ({ frag_text := "hi", conf := 90, left := 0, top := 0, width := 5, height := 5 }
        : OCRFragment).conf) :=
  ⟨by simp,
    C7_ocr_fixed_cutoff.2.1 "hi"
      [{ frag_text := "hi", conf := 90, left := 0, top := 0, width := 5, height := 5 }]
      { frag_text := "hi", conf := 90, left := 0, top := 0, width := 5, height := 5 }
      (by simp)⟩

end Whiteboard
